import Mathlib

/-!
Verification of the Netflix Content Distribution Economics dashboard
(`src/app.py`) against its natural-language specification.

The program is a single Streamlit script: it emits a page title and
introductory text, then inside one `try` block loads a CSV through a
memoized loader (`@st.cache_data def load_data()`), offers a sidebar
radio with five page names, and dispatches on the selected page through
an `if`/`elif` chain with no `else`; any exception is caught by the one
top-level `except` and shown with `st.error`.

The shallow embedding below models the file system / pandas collaborator
as an oracle (`FileState`), the Streamlit cache as explicit state threaded
through `load_data`, and every Streamlit output call as a `RenderItem`;
one render cycle of the script is the pure function `runApp`.
-/

namespace NetflixDashboard

/-- A loaded pandas dataframe: a column header list and rows of cells.
Cell contents are opaque strings; the program never inspects them. -/
structure DataFrame where
  columns : List String
  rows : List (List String)
deriving DecidableEq, Repr

/-- `df.head(n)`: the first `n` rows with the same columns. -/
def DataFrame.head (df : DataFrame) (n : Nat) : DataFrame :=
  ⟨df.columns, df.rows.take n⟩

/-- State of a file as seen by `pd.read_csv`: absent, present but not
readable, present but not parseable as CSV, or a parseable CSV whose
parse result is the given dataframe. -/
inductive FileState
  | missing
  | unreadable
  | malformed
  | csv (df : DataFrame)
deriving DecidableEq, Repr

/-- The file system: what `pd.read_csv` finds at each path. -/
abbrev FS := String → FileState

/-- The exceptions `pd.read_csv` can raise, collapsed to the classes the
dashboard can observe (it only ever stringifies them). -/
inductive LoadError
  | fileNotFound
  | permissionError
  | parserError
deriving DecidableEq, Repr

/-- The display string of the exception, used by the `st.error` call. -/
def LoadError.message : LoadError → String
  | .fileNotFound => "FileNotFoundError"
  | .permissionError => "PermissionError"
  | .parserError => "ParserError"

/-- Model of the collaborator call `pd.read_csv(path)`: returns the parsed
dataframe, or raises according to the state of the file. No column
validation of any kind is performed. -/
def read_csv (fs : FS) (path : String) : Except LoadError DataFrame :=
  match fs path with
  | .missing => .error .fileNotFound
  | .unreadable => .error .permissionError
  | .malformed => .error .parserError
  | .csv df => .ok df

/-- The fixed relative path the loader reads. -/
def csvPath : String := "netflix_clean.csv"

/-- `load_data` under `@st.cache_data`: the cache (keyed on the function
and its empty argument list, so a single optional entry) is taken and
returned explicitly. A cache hit returns the entry without touching
storage; a miss calls `pd.read_csv`, caching the result only on success
(Streamlit does not cache raised exceptions). The `Bool` records whether
storage was read. -/
def load_data (fs : FS) (cache : Option DataFrame) :
    Except LoadError DataFrame × Option DataFrame × Bool :=
  match cache with
  | some df => (.ok df, some df, false)
  | none =>
    match read_csv fs csvPath with
    | .ok df => (.ok df, some df, true)
    | .error e => (.error e, none, true)

/-- The value shown by an `st.metric` call: the source passes ints on the
Overview page and strings on the Duration Prediction page. -/
inductive MetricVal
  | int (n : Int)
  | str (s : String)
deriving DecidableEq, Repr

/-- The data behind one seaborn plot handed to `st.pyplot`: a vertical
barplot (categorical x, numeric y), a horizontal barplot (numeric x,
categorical y), or a lineplot. -/
inductive Chart
  | bar (x : List String) (y : List Int) (palette : String)
  | barh (x : List Int) (y : List String) (palette : String)
  | line (x : List Int) (y : List Int)
deriving DecidableEq, Repr

/-- One row of the clustering summary table `pd.DataFrame(cluster_summary).T`:
the row label and the Year / Duration / Type / Segment columns. -/
structure ClusterRow where
  name : String
  year : Int
  duration : String
  rowType : String
  segment : String
deriving DecidableEq, Repr

/-- One Streamlit output call of the script, in emission order. The
`st.columns` layout containers only position items side by side; the
items they hold are recorded in source order. -/
inductive RenderItem
  | pageConfig (title layout : String)
  | title (text : String)
  | markdown (text : String)
  | header (text : String)
  | write (text : String)
  | metric (label : String) (value : MetricVal)
  | dataframe (df : DataFrame)
  | pyplot (c : Chart)
  | info (text : String)
  | table (rows : List ClusterRow)
  | sidebarHeader (text : String)
  | sidebarRadio (label : String) (choices : List String)
  | error (text : String)
deriving DecidableEq, Repr

/-- The five radio choices offered by the sidebar. -/
def pageChoices : List String :=
  ["Overview", "Exploratory Analysis", "Content Clustering",
   "Duration Prediction", "Strategic Recommendations"]

/-- The intro `st.markdown` under the title. -/
def introText : String :=
  "This dashboard analyzes the Netflix content library using Economic principles to understand content segmentation and trends."

/-- Output emitted before the `try` block: page config, title, intro. -/
def preOutput : List RenderItem :=
  [.pageConfig "Netflix Business Analysis" "wide",
   .title "🎬 Netflix Content Strategy & Business Analysis",
   .markdown introText]

/-- Sidebar output emitted inside the `try`, after a successful load. -/
def sidebarItems : List RenderItem :=
  [.sidebarHeader "Navigation", .sidebarRadio "Go to" pageChoices]

/-- The Overview page explanatory markdown. -/
def overviewText : String :=
  "*   **Supply Balance**: Movies significantly outnumber TV Shows (70% vs 30%). This suggests a strategy focused on high-volume, single-session viewing to lower the entry barrier for casual users.\n*   **Data Integrity**: The dataset is fully clean with no missing values, ensuring that strategic decisions based on this analysis are grounded in reliable data."

/-- The `page == "Overview"` branch: three literal metrics, explanatory
text, and the `df.head(10)` preview. -/
def renderOverview (df : DataFrame) : List RenderItem :=
  [.header "📊 Dataset Overview",
   .metric "Total Titles" (.int 8706),
   .metric "Movies" (.int 6128),
   .metric "TV Shows" (.int 2578),
   .write "### Business Meaning of Data Overview",
   .markdown overviewText,
   .write "### Sample Data",
   .dataframe (df.head 10)]

/-- The literal `genre_data` dict of the Exploratory Analysis branch. -/
def genre_data : List (String × Int) :=
  [("International Movies", 2752), ("Dramas", 2427), ("Comedies", 1674),
   ("International TV Shows", 1328), ("Documentaries", 869),
   ("Action & Adventure", 859), ("Independent Movies", 756),
   ("TV Dramas", 739), ("Children & Family Movies", 641),
   ("Romantic Movies", 616)]

/-- The literal `release_data` dict of the Exploratory Analysis branch. -/
def release_data : List (Int × Int) :=
  [(2010, 189), (2012, 229), (2014, 343), (2015, 548), (2016, 878),
   (2017, 1015), (2018, 1140), (2019, 1030), (2020, 953)]

/-- The `st.info` under the Movies vs TV Shows chart. -/
def movieShowInfo : String :=
  "**Economic Principle**: This reflects resource allocation. A higher supply of movies may indicate a lower production cost per title compared to multi-season series, while TV shows aim for sustained engagement and reduced churn."

/-- The `st.info` under the Top 10 Genres chart. -/
def genreInfo : String :=
  "**Strategy**: International content and Dramas dominate, highlighting a Global Diversification strategy to capture market share across different cultural demographics."

/-- The markdown under the release-trend chart. -/
def releaseTrendText : String :=
  "**Economic Interpretation**: \nThe exponential growth in titles until 2018 represents an aggressive **Market Penetration** phase. The recent stabilization suggests a transition from \x27Supply-side Push\x27 to a more targeted \x27Nuanced Demand\x27 strategy, focusing on quality and lifecycle retention."

/-- The `page == "Exploratory Analysis"` branch: three charts built from
literal frequency tables, each with attached commentary. -/
def renderExploratory : List RenderItem :=
  [.header "📈 Exploratory Data Analysis & Economic Insights",
   .write "#### Movies vs TV Shows",
   .pyplot (.bar ["TV Show", "Movie"] [2578, 6128] "viridis"),
   .info movieShowInfo,
   .write "#### Top 10 Genres",
   .pyplot (.barh (genre_data.map Prod.snd) (genre_data.map Prod.fst) "magma"),
   .info genreInfo,
   .write "#### Content Release Trend (Supply Trend)",
   .pyplot (.line (release_data.map Prod.fst) (release_data.map Prod.snd)),
   .markdown releaseTrendText]

/-- The literal `cluster_summary` dict, transposed into its four table
rows in insertion order. -/
def cluster_summary : List ClusterRow :=
  [⟨"Cluster 0", 2014, "106 min", "Movie", "Mainstream Movies"⟩,
   ⟨"Cluster 1", 2016, "90 min", "Movie", "Recent Indie/Short Films"⟩,
   ⟨"Cluster 2", 2017, "1.7 Seasons", "TV Show", "Modern Episodic Content"⟩,
   ⟨"Cluster 3", 1985, "112 min", "Movie", "Classic Library Content"⟩]

/-- The markdown above the clustering table. -/
def clusterIntroText : String :=
  "### Market Segmentation Results\nThe K-Means algorithm identified 4 distinct content segments based on year, duration, and rating:"

/-- The markdown below the clustering table. -/
def clusterInsightsText : String :=
  "**Strategic Business Insights**:\n1.  **Cluster 0 & 3 (Movies)**: Drive initial user acquisition and provide library depth.\n2.  **Cluster 2 (TV Shows)**: Vital for **Customer Lifetime Value (CLTV)**. Multi-season shows reduce churn and build brand loyalty.\n3.  **Cluster 1**: Represents testing of new concepts via shorter form content, allowing for efficient experimentation with user preferences."

/-- The `page == "Content Clustering"` branch: a fixed 4-row table of
precomputed centroids plus static commentary. -/
def renderClustering : List RenderItem :=
  [.header "🧩 K-Means Content Segmentation",
   .markdown clusterIntroText,
   .table cluster_summary,
   .markdown clusterInsightsText]

/-- The markdown under the two regression metrics. -/
def durationText : String :=
  "**Model Interpretation**:\n*   The low **R-squared (14%)** indicates that content rating is a poor predictor of duration.\n*   **Business Implication**: Netflix does not restrict content length based on target age group. Instead, duration is likely driven by **Creative Intent**, **Genre Conventions**, and **Production Budgets**. \n*   This flexibility allows creators to maximize \x27Consumer Utility\x27 without rigid format constraints."

/-- The `page == "Duration Prediction"` branch: two literal string
metrics plus static interpretive text. -/
def renderDuration : List RenderItem :=
  [.header "📉 Linear Regression: Rating vs Duration",
   .metric "R² Score" (.str "0.1407"),
   .metric "Mean Squared Error" (.str "2264.50"),
   .markdown durationText]

/-- The Strategic Recommendations markdown body. -/
def recommendationsText : String :=
  "Based on the full analysis, here are the core economic recommendations:\n\n#### 1. Optimization of Content Mix\n*   **Acquisition**: Continue leveraging Cluster 0 (International Movies) for rapid library expansion in emerging markets.\n*   **Retention**: Pivot investment towards Cluster 2 (TV Shows) to increase binge-watching cycles and subscription stability.\n\n#### 2. Risk Diversification\n*   Maintaining a high volume of \x27International\x27 titles serves as a hedge against market-specific saturation or regulatory shifts in any single country.\n\n#### 3. Data-Driven Decisions\n*   Since ratings don\x27t dictate duration, Netflix should continue allowing creators to tailor runtimes to storytelling needs, as this \x27Product Differentiation\x27 is a key competitive advantage over traditional linear TV.\n\n#### 4. Subscriber Lifecycle Management\n*   Use broad-appeal movies (Clusters 0, 3) for the **Acquisition Phase**.\n*   Deploy compelling multi-season series (Cluster 2) for the **Retention Phase**."

/-- The `page == "Strategic Recommendations"` branch: static text only. -/
def renderRecommendations : List RenderItem :=
  [.header "🎯 Strategic Recommendations for Netflix",
   .markdown recommendationsText]

/-- The five render branches of the dispatch chain. -/
inductive Branch
  | overview
  | exploratory
  | clustering
  | duration
  | recommendations
deriving DecidableEq, Repr

/-- Which branch of the `if`/`elif` chain the navigation value selects;
`none` when no guard matches (the chain has no `else`). -/
def branchTaken (page : String) : Option Branch :=
  if page = "Overview" then some .overview
  else if page = "Exploratory Analysis" then some .exploratory
  else if page = "Content Clustering" then some .clustering
  else if page = "Duration Prediction" then some .duration
  else if page = "Strategic Recommendations" then some .recommendations
  else none

/-- The body of each branch. -/
def renderBranch : Branch → DataFrame → List RenderItem
  | .overview, df => renderOverview df
  | .exploratory, _ => renderExploratory
  | .clustering, _ => renderClustering
  | .duration, _ => renderDuration
  | .recommendations, _ => renderRecommendations

/-- The page dispatch: run the taken branch, or emit nothing when no
guard matches. -/
def dispatch (page : String) (df : DataFrame) : List RenderItem :=
  match branchTaken page with
  | some b => renderBranch b df
  | none => []

/-- One full render cycle of the script: the pre-`try` output, then —
inside the `try` — the load, the sidebar, and the dispatch on the
selected page `nav`; when the load raises, the one `except` handler
turns the exception into a single `st.error` call. -/
def runApp (fs : FS) (cache : Option DataFrame) (nav : String) :
    List RenderItem :=
  match (load_data fs cache).1 with
  | .ok df => preOutput ++ sidebarItems ++ dispatch nav df
  | .error e => preOutput ++ [.error ("Error loading dashboard: " ++ e.message)]

/-- The metrics (label, value) emitted in a render output, in order. -/
def metricsOf (l : List RenderItem) : List (String × MetricVal) :=
  l.filterMap fun i =>
    match i with
    | .metric lab v => some (lab, v)
    | _ => none

/-- The tables emitted in a render output, in order. -/
def tablesOf (l : List RenderItem) : List (List ClusterRow) :=
  l.filterMap fun i =>
    match i with
    | .table rows => some rows
    | _ => none

/-- Whether an item is an `st.error` message. -/
def isError : RenderItem → Bool
  | .error _ => true
  | _ => false

/-- Whether an item is emitted only by the five page branches (headers,
writes, metrics, dataframe previews, charts, info boxes, tables); the
pre-`try` output and the error handler emit none of these. -/
def isPageContent : RenderItem → Bool
  | .header _ => true
  | .write _ => true
  | .metric _ _ => true
  | .dataframe _ => true
  | .pyplot _ => true
  | .info _ => true
  | .table _ => true
  | _ => false

/-- Whether an item is a dataframe preview (`st.dataframe`). -/
def isDataframe : RenderItem → Bool
  | .dataframe _ => true
  | _ => false

/-- Whether an item is the sidebar radio selector. -/
def isSidebarRadio : RenderItem → Bool
  | .sidebarRadio _ _ => true
  | _ => false

/-- The columns the specification requires of the dataset, under the
usual Netflix-CSV column names: type, genre listing (`listed_in`),
release year, duration, rating. -/
def requiredColumns : List String :=
  ["type", "listed_in", "release_year", "duration", "rating"]

/-- A small well-formed dataset used as a concrete witness input. -/
def dfSample : DataFrame :=
  ⟨["type", "listed_in", "release_year", "duration", "rating"],
   [["Movie", "Dramas", "2020", "100 min", "PG"],
    ["TV Show", "TV Dramas", "2021", "2 Seasons", "TV-MA"]]⟩

/-- A file system where the expected CSV exists and parses to `dfSample`. -/
def fsSample : FS := fun p => if p = csvPath then .csv dfSample else .missing

/-- A file system where no file exists (nonexistent source path). -/
def fsMissing : FS := fun _ => .missing

/-- A parseable CSV that has none of the required columns. -/
def dfNoCols : DataFrame := ⟨["foo"], [["1"], ["2"]]⟩

/-- A file system where the expected CSV exists but parses to a table
lacking every required column. -/
def fsNoCols : FS := fun p => if p = csvPath then .csv dfNoCols else .missing

/-! ## Helper lemmas -/

/-- Only the first guard of the dispatch chain selects the Overview branch. -/
theorem branchTaken_eq_overview {nav : String}
    (h : branchTaken nav = some Branch.overview) : nav = "Overview" := by
  unfold branchTaken at h
  split_ifs at h with h1 h2 h3 h4 h5
  · exact h1
  all_goals simp_all

/-! ## Claims -/

/-- C1: every failure during load is caught exactly once at the top
level: the whole output for that cycle is the pre-`try` output followed
by a single user-visible error message, there is exactly one error item,
and no page content renders. The embedding is total, so no path escapes
the handler (no crash). -/
theorem c1_top_level_catch (fs : FS) (cache : Option DataFrame) (nav : String)
    (e : LoadError) (h : (load_data fs cache).1 = .error e) :
    runApp fs cache nav =
      preOutput ++ [.error ("Error loading dashboard: " ++ e.message)] ∧
    ((runApp fs cache nav).filter isError).length = 1 ∧
    (runApp fs cache nav).filter isPageContent = [] := by
  have h0 : runApp fs cache nav =
      preOutput ++ [.error ("Error loading dashboard: " ++ e.message)] := by
    unfold runApp
    rw [h]
  refine ⟨h0, ?_, ?_⟩ <;> rw [h0] <;> rfl

/-- C1 witness: a nonexistent source path yields the single error message. -/
theorem c1_top_level_catch_witness :
    runApp fsMissing none "Overview" =
      preOutput ++
        [.error ("Error loading dashboard: " ++ LoadError.fileNotFound.message)] ∧
    ((runApp fsMissing none "Overview").filter isError).length = 1 ∧
    (runApp fsMissing none "Overview").filter isPageContent = [] :=
  c1_top_level_catch fsMissing none "Overview" .fileNotFound rfl

/-- C2: for every navigation value in the offered choice set, exactly one
of the five branches is taken, and the dispatch output is exactly that
branch's output (mutual exclusion and no fallthrough follow from the
uniqueness of the taken branch). -/
theorem c2_exactly_one_branch (nav : String) (df : DataFrame)
    (h : nav ∈ pageChoices) :
    ∃! b : Branch, branchTaken nav = some b ∧
      dispatch nav df = renderBranch b df := by
  simp only [pageChoices, List.mem_cons, List.not_mem_nil, or_false] at h
  rcases h with rfl | rfl | rfl | rfl | rfl
  · refine ⟨.overview, ⟨by decide, rfl⟩, fun b hb => ?_⟩
    have h2 := hb.1
    rw [show branchTaken "Overview" = some Branch.overview from by decide] at h2
    exact (Option.some.inj h2).symm
  · refine ⟨.exploratory, ⟨by decide, rfl⟩, fun b hb => ?_⟩
    have h2 := hb.1
    rw [show branchTaken "Exploratory Analysis" = some Branch.exploratory from by decide] at h2
    exact (Option.some.inj h2).symm
  · refine ⟨.clustering, ⟨by decide, rfl⟩, fun b hb => ?_⟩
    have h2 := hb.1
    rw [show branchTaken "Content Clustering" = some Branch.clustering from by decide] at h2
    exact (Option.some.inj h2).symm
  · refine ⟨.duration, ⟨by decide, rfl⟩, fun b hb => ?_⟩
    have h2 := hb.1
    rw [show branchTaken "Duration Prediction" = some Branch.duration from by decide] at h2
    exact (Option.some.inj h2).symm
  · refine ⟨.recommendations, ⟨by decide, rfl⟩, fun b hb => ?_⟩
    have h2 := hb.1
    rw [show branchTaken "Strategic Recommendations" = some Branch.recommendations from by decide] at h2
    exact (Option.some.inj h2).symm

/-- C2 witness: on the concrete value "Overview" the unique branch exists. -/
theorem c2_exactly_one_branch_witness :
    ∃! b : Branch, branchTaken "Overview" = some b ∧
      dispatch "Overview" dfSample = renderBranch b dfSample :=
  c2_exactly_one_branch "Overview" dfSample (by decide)

/-- C3: when the first load succeeds, every later invocation against the
resulting cache returns the very same table (hence identical row count
and column set) without reading storage, and leaves the cache unchanged
(so the property propagates to all later invocations; the cache is never
evicted). -/
theorem c3_cached_load_idempotent (fs : FS) (df : DataFrame)
    (c : Option DataFrame) (b : Bool)
    (h : load_data fs none = (.ok df, c, b)) :
    load_data fs c = (.ok df, c, false) ∧
    (load_data fs c).2.2 = false := by
  unfold load_data at h
  cases hr : read_csv fs csvPath with
  | ok df0 =>
    rw [hr] at h
    injection h with h1 h23
    injection h23 with h2 h3
    injection h1 with h1
    subst h1
    subst h2
    exact ⟨rfl, rfl⟩
  | error e =>
    rw [hr] at h
    injection h with h1 h23
    exact absurd h1 (by simp)

/-- C3 witness: a concrete successful load, reloaded from cache. -/
theorem c3_cached_load_idempotent_witness :
    load_data fsSample (some dfSample) = (.ok dfSample, some dfSample, false) ∧
    (load_data fsSample (some dfSample)).2.2 = false :=
  c3_cached_load_idempotent fsSample dfSample (some dfSample) true rfl

/-- C4: the Overview branch emits exactly three metrics with the literal
values 8706, 6128 and 2578, plus the preview of the first 10 rows of the
loaded dataset; the metrics are the same for every dataset, hence not
computed from it. -/
theorem c4_overview_metrics (df : DataFrame) :
    metricsOf (renderOverview df) =
      [("Total Titles", .int 8706), ("Movies", .int 6128),
       ("TV Shows", .int 2578)] ∧
    RenderItem.dataframe (df.head 10) ∈ renderOverview df ∧
    ∀ df2 : DataFrame,
      metricsOf (renderOverview df2) = metricsOf (renderOverview df) := by
  refine ⟨rfl, ?_, fun df2 => rfl⟩
  simp [renderOverview]

/-- C5: the Duration Prediction branch emits exactly the two literal
string metrics R² = 0.1407 and MSE = 2264.50, and its entire output is
independent of the loaded dataset (no regression is computed there). -/
theorem c5_duration_metrics :
    metricsOf renderDuration =
      [("R² Score", .str "0.1407"), ("Mean Squared Error", .str "2264.50")] ∧
    ∀ df1 df2 : DataFrame,
      dispatch "Duration Prediction" df1 = dispatch "Duration Prediction" df2 :=
  ⟨rfl, fun _ _ => rfl⟩

/-- C6: after a successful load, the Content Clustering cycle emits
exactly one table; it has 4 rows whose segment labels are the four
literal strings in the stated order, independent of the dataset. -/
theorem c6_cluster_table (fs : FS) (cache : Option DataFrame) (df : DataFrame)
    (h : (load_data fs cache).1 = .ok df) :
    tablesOf (runApp fs cache "Content Clustering") = [cluster_summary] ∧
    cluster_summary.length = 4 ∧
    cluster_summary.map ClusterRow.segment =
      ["Mainstream Movies", "Recent Indie/Short Films",
       "Modern Episodic Content", "Classic Library Content"] := by
  refine ⟨?_, rfl, rfl⟩
  unfold runApp
  rw [h]
  rfl

/-- C6 witness: the concrete sample load renders the cluster table. -/
theorem c6_cluster_table_witness :
    tablesOf (runApp fsSample none "Content Clustering") = [cluster_summary] ∧
    cluster_summary.length = 4 ∧
    cluster_summary.map ClusterRow.segment =
      ["Mainstream Movies", "Recent Indie/Short Films",
       "Modern Episodic Content", "Classic Library Content"] :=
  c6_cluster_table fsSample none dfSample rfl

/-- C7: for a navigation value outside the five defined identifiers, no
guard of the chain matches: no branch runs and the dispatch emits
nothing (a neutral no-content state, not an error — the dispatch is a
total function). -/
theorem c7_unknown_nav_no_content (nav : String) (df : DataFrame)
    (h : nav ∉ pageChoices) :
    branchTaken nav = none ∧ dispatch nav df = [] := by
  simp only [pageChoices, List.mem_cons, List.not_mem_nil, or_false, not_or] at h
  obtain ⟨h1, h2, h3, h4, h5⟩ := h
  have hb : branchTaken nav = none := by
    unfold branchTaken
    rw [if_neg h1, if_neg h2, if_neg h3, if_neg h4, if_neg h5]
  refine ⟨hb, ?_⟩
  unfold dispatch
  rw [hb]

/-- C7 witness: the out-of-set value "Settings" renders no content. -/
theorem c7_unknown_nav_no_content_witness :
    branchTaken "Settings" = none ∧ dispatch "Settings" dfSample = [] :=
  c7_unknown_nav_no_content "Settings" dfSample (by decide)

/-- The non-preview part of the dispatch output is the same for any two
datasets. -/
theorem dispatch_filter_not_dataframe (nav : String) (df1 df2 : DataFrame) :
    (dispatch nav df1).filter (fun i => !(isDataframe i)) =
    (dispatch nav df2).filter (fun i => !(isDataframe i)) := by
  unfold dispatch
  cases branchTaken nav with
  | none => rfl
  | some b => cases b <;> rfl

/-- The dataframe previews of the dispatch output: exactly the 10-row
head on the Overview page, nothing anywhere else. -/
theorem dispatch_filter_dataframe (nav : String) (df : DataFrame) :
    (dispatch nav df).filter isDataframe =
      if nav = "Overview" then [.dataframe (df.head 10)] else [] := by
  by_cases hn : nav = "Overview"
  · subst hn
    rw [if_pos rfl]
    rfl
  · rw [if_neg hn]
    unfold dispatch
    cases hb : branchTaken nav with
    | none => rfl
    | some b =>
      cases b with
      | overview => exact absurd (branchTaken_eq_overview hb) hn
      | exploratory => rfl
      | clustering => rfl
      | duration => rfl
      | recommendations => rfl

/-- C8: noninterference of the dataset with everything but the preview:
for any two successfully loaded datasets, the two render cycles agree on
every item except the `st.dataframe` previews, and the only preview ever
emitted is the Overview 10-row head of the loaded dataset. -/
theorem c8_dataset_noninterference (fs1 fs2 : FS)
    (cache1 cache2 : Option DataFrame) (nav : String) (df1 df2 : DataFrame)
    (h1 : (load_data fs1 cache1).1 = .ok df1)
    (h2 : (load_data fs2 cache2).1 = .ok df2) :
    (runApp fs1 cache1 nav).filter (fun i => !(isDataframe i)) =
      (runApp fs2 cache2 nav).filter (fun i => !(isDataframe i)) ∧
    (runApp fs1 cache1 nav).filter isDataframe =
      (if nav = "Overview" then [.dataframe (df1.head 10)] else []) := by
  have e1 : runApp fs1 cache1 nav = preOutput ++ sidebarItems ++ dispatch nav df1 := by
    unfold runApp
    rw [h1]
  have e2 : runApp fs2 cache2 nav = preOutput ++ sidebarItems ++ dispatch nav df2 := by
    unfold runApp
    rw [h2]
  have hp : preOutput.filter (fun i => !(isDataframe i)) = preOutput := rfl
  have hs : sidebarItems.filter (fun i => !(isDataframe i)) = sidebarItems := rfl
  have hp2 : preOutput.filter isDataframe = [] := rfl
  have hs2 : sidebarItems.filter isDataframe = [] := rfl
  rw [e1, e2]
  constructor
  · simp only [List.filter_append, hp, hs,
      dispatch_filter_not_dataframe nav df1 df2]
  · simp only [List.filter_append, hp2, hs2, List.nil_append,
      dispatch_filter_dataframe nav df1]

/-- C8 witness: two concrete loads with the same dataset agree, and the
Overview cycle previews the 10-row head. -/
theorem c8_dataset_noninterference_witness :
    (runApp fsSample none "Overview").filter (fun i => !(isDataframe i)) =
      (runApp fsSample (some dfSample) "Overview").filter
        (fun i => !(isDataframe i)) ∧
    (runApp fsSample none "Overview").filter isDataframe =
      (if "Overview" = "Overview" then [.dataframe (dfSample.head 10)]
       else []) :=
  c8_dataset_noninterference fsSample fsSample none (some dfSample)
    "Overview" dfSample dfSample rfl rfl

/-- C9 counterexample: a CSV that parses but has none of the required
columns (type, listed_in, release_year, duration, rating) is not
rejected: the loader returns it and the Overview cycle renders it,
including its preview. The claimed structural validation does not exist. -/
theorem c9_counterexample :
    (load_data fsNoCols none).1 = .ok dfNoCols ∧
    requiredColumns.all (fun c => !(dfNoCols.columns.contains c)) = true ∧
    runApp fsNoCols none "Overview" =
      preOutput ++ sidebarItems ++ renderOverview dfNoCols ∧
    RenderItem.dataframe (dfNoCols.head 10) ∈ runApp fsNoCols none "Overview" := by
  refine ⟨rfl, rfl, rfl, ?_⟩
  simp [runApp, load_data, read_csv, fsNoCols, csvPath, renderOverview,
    preOutput, sidebarItems, dispatch, branchTaken, renderBranch]

/-- C9 (amended): the loader fails whenever the file is missing,
unreadable or unparseable, and the failure surfaces as the single
user-visible error; no column validation is performed on a parseable
file. -/
theorem c9_amended_loader_failures (fs : FS) (nav : String)
    (h : fs csvPath = .missing ∨ fs csvPath = .unreadable ∨
      fs csvPath = .malformed) :
    ∃ e : LoadError, (load_data fs none).1 = .error e ∧
      runApp fs none nav =
        preOutput ++ [.error ("Error loading dashboard: " ++ e.message)] := by
  rcases h with h | h | h
  · refine ⟨.fileNotFound, ?_, ?_⟩
    · unfold load_data read_csv
      rw [h]
    · unfold runApp load_data read_csv
      rw [h]
  · refine ⟨.permissionError, ?_, ?_⟩
    · unfold load_data read_csv
      rw [h]
    · unfold runApp load_data read_csv
      rw [h]
  · refine ⟨.parserError, ?_, ?_⟩
    · unfold load_data read_csv
      rw [h]
    · unfold runApp load_data read_csv
      rw [h]

/-- C9 witness: the missing-file case concretely fails and shows the
error message. -/
theorem c9_amended_loader_failures_witness :
    ∃ e : LoadError, (load_data fsMissing none).1 = .error e ∧
      runApp fsMissing none "Overview" =
        preOutput ++ [.error ("Error loading dashboard: " ++ e.message)] :=
  c9_amended_loader_failures fsMissing "Overview" (Or.inl rfl)

/-- C10: the page config, title and intro are emitted before the `try`
block, so they open every cycle; when the load fails, the rest of the
cycle is exactly the single error message and in particular no sidebar
radio is offered; when the load succeeds, the sidebar radio with the
five choices is present. -/
theorem c10_pre_try_output_and_sidebar (fs : FS) (cache : Option DataFrame)
    (nav : String) :
    (runApp fs cache nav).take 3 = preOutput ∧
    (∀ e : LoadError, (load_data fs cache).1 = .error e →
      runApp fs cache nav =
        preOutput ++ [.error ("Error loading dashboard: " ++ e.message)] ∧
      (runApp fs cache nav).filter isSidebarRadio = []) ∧
    (∀ df : DataFrame, (load_data fs cache).1 = .ok df →
      RenderItem.sidebarRadio "Go to" pageChoices ∈ runApp fs cache nav) := by
  refine ⟨?_, ?_, ?_⟩
  · unfold runApp
    cases hl : (load_data fs cache).1 with
    | ok df => rfl
    | error e => rfl
  · intro e he
    have h0 : runApp fs cache nav =
        preOutput ++ [.error ("Error loading dashboard: " ++ e.message)] := by
      unfold runApp
      rw [he]
    exact ⟨h0, by rw [h0]; rfl⟩
  · intro df hd
    unfold runApp
    rw [hd]
    simp [preOutput, sidebarItems]

/-- C10 witness: concretely, the failed cycle keeps the title but offers
no radio, and the successful cycle offers the radio. -/
theorem c10_pre_try_output_and_sidebar_witness :
    (runApp fsMissing none "Overview").take 3 = preOutput ∧
    (runApp fsMissing none "Overview" =
      preOutput ++
        [.error ("Error loading dashboard: " ++ LoadError.fileNotFound.message)] ∧
      (runApp fsMissing none "Overview").filter isSidebarRadio = []) ∧
    RenderItem.sidebarRadio "Go to" pageChoices ∈ runApp fsSample none "Overview" :=
  ⟨(c10_pre_try_output_and_sidebar fsMissing none "Overview").1,
   (c10_pre_try_output_and_sidebar fsMissing none "Overview").2.1
     .fileNotFound rfl,
   (c10_pre_try_output_and_sidebar fsSample none "Overview").2.2 dfSample rfl⟩

end NetflixDashboard
